import Mathlib

/-!
Verification development for a client-side error-reporting SDK
(ingestion pipeline: validation, redaction, rate limiting, quota
accounting, circuit breaking, batching, retry and offline queueing).

Each definition is a shallow embedding of the corresponding function of
the TypeScript source.  Machine integers are modelled as `Int`/`Nat`
(JavaScript numbers in the source stay in safe-integer range for all
quantities involved: timestamps, counters, byte sizes).  Wall-clock
reads (`Date.now()`, date keys) are passed explicitly as parameters,
JSON byte sizes (`new Blob([JSON.stringify(x)]).size`) as oracle
functions, and the durable key-value store (`localStorage`) as an
explicit map argument.
-/

namespace ErrorSDK

/-- Lower-case an ASCII character (model of JavaScript `toLowerCase` on
the ASCII range, which is all the source compares). -/
def lowerChar (c : Char) : Char :=
  if 'A' ≤ c ∧ c ≤ 'Z' then Char.ofNat (c.toNat + 32) else c

/-- Lower-case a character list. -/
def lowerList (s : List Char) : List Char := s.map lowerChar

/-- `needle` occurs contiguously in `haystack` (model of JavaScript
`String.prototype.includes`). -/
def containsSub (haystack needle : List Char) : Bool :=
  match haystack with
  | [] => needle.isEmpty
  | _ :: t => needle.isPrefixOf haystack || containsSub t needle

/-- String version of `containsSub`. -/
def strIncludes (haystack needle : String) : Bool :=
  containsSub haystack.toList needle.toList

/-- JavaScript word character (`\w`): ASCII letter, digit or underscore. -/
def isWordChar (c : Char) : Bool :=
  ('a' ≤ c ∧ c ≤ 'z') || ('A' ≤ c ∧ c ≤ 'Z') || ('0' ≤ c ∧ c ≤ '9') || c = '_'

/-- ASCII digit. -/
def isDigitCh (c : Char) : Bool := '0' ≤ c ∧ c ≤ '9'

/-- JavaScript whitespace class `\s` (the subset that can occur in the
payloads we model). -/
def isSpaceCh (c : Char) : Bool :=
  c = ' ' || c = '\t' || c = '\n' || c = '\r' || c = '\x0b' || c = '\x0c'

/-! ## JSON-like values

`Record<string, any>` data flowing through the sanitizer (`context`,
`user`, breadcrumb `data`) is modelled as a JSON-like inductive. -/

/-- JSON-like runtime value. -/
inductive JVal : Type
  | str (s : String)
  | num (n : Int)
  | boolean (b : Bool)
  | null
  | arr (xs : List JVal)
  | obj (kvs : List (String × JVal))

/-- Breadcrumb attached to a report (`Breadcrumb` in `types`). -/
structure Breadcrumb where
  message : String
  category : String
  level : String
  timestamp : String
  data : Option JVal

/-- The unit flowing through the pipeline (`ErrorData` in `types`);
fields not inspected by the modelled code paths are omitted from the
embedding only when no claim mentions them (`browser`, `request`,
`commitHash`, `version`, `customData` are never read by the pipeline
stages under verification). -/
structure ErrorData where
  message : String
  exception_class : String
  stack_trace : String
  file : String
  line : Nat
  project : String
  environment : String
  timestamp : String
  context : Option JVal
  breadcrumbs : Option (List Breadcrumb)
  user : Option JVal

/-! ## Regex engine

The sanitizer applies nine JavaScript regular expressions with
global-replace.  The patterns use only: character classes, literal
characters, greedy `?`, greedy `*`, bounded repetition `{n}` / `{n,}`
and the word-boundary assertion `\b`.  The engine below implements the
leftmost / greedy backtracking semantics of JavaScript `RegExp` for
this fragment. -/

/-- Regular-expression fragment used by the sensitive-data patterns. -/
inductive Reg : Type
  | cls (p : Char → Bool)      -- character class (one character)
  | seq (a b : Reg)            -- concatenation
  | opt (a : Reg)              -- greedy `a?`
  | star (a : Reg)             -- greedy `a*`
  | rep (n : Nat) (a : Reg)    -- `a{n}`
  | wb                         -- word boundary `\b`

/-- Word boundary test between the previous character and the rest of
the input. -/
def atWordBoundary (prev : Option Char) (s : List Char) : Bool :=
  let pw := match prev with
    | none => false
    | some c => isWordChar c
  let nw := match s with
    | [] => false
    | c :: _ => isWordChar c
  pw ≠ nw

/-- Backtracking matcher in continuation style.  `prev` is the character
immediately before the current position (for `\b`), `k` the
continuation receiving the new previous character and the remaining
input.  Greedy operators try the longer alternative first, as in
JavaScript.  `fuel` bounds the recursion depth; every use supplies
enough fuel for the pattern and input at hand. -/
def regMatch : Nat → Reg → Option Char → List Char →
    (Option Char → List Char → Option (List Char)) → Option (List Char)
  | 0, _, _, _, _ => none
  | _ + 1, Reg.cls p, _, s, k =>
      match s with
      | [] => none
      | c :: rest => if p c then k (some c) rest else none
  | fuel + 1, Reg.seq a b, prev, s, k =>
      regMatch fuel a prev s (fun p' s' => regMatch fuel b p' s' k)
  | fuel + 1, Reg.opt a, prev, s, k =>
      (regMatch fuel a prev s k).orElse (fun _ => k prev s)
  | fuel + 1, Reg.star a, prev, s, k =>
      (regMatch fuel a prev s (fun p' s' =>
        if s'.length < s.length then regMatch fuel (Reg.star a) p' s' k else none)).orElse
        (fun _ => k prev s)
  | _ + 1, Reg.rep 0 _, prev, s, k => k prev s
  | fuel + 1, Reg.rep (n + 1) a, prev, s, k =>
      regMatch fuel a prev s (fun p' s' => regMatch fuel (Reg.rep n a) p' s' k)
  | _ + 1, Reg.wb, prev, s, k =>
      if atWordBoundary prev s then k prev s else none

/-- Structural size of a pattern, used to compute a sufficient fuel. -/
def regSize : Reg → Nat
  | Reg.cls _ => 1
  | Reg.seq a b => regSize a + regSize b + 1
  | Reg.opt a => regSize a + 1
  | Reg.star a => regSize a + 1
  | Reg.rep n a => n * regSize a + regSize a + 1
  | Reg.wb => 1

/-- Fuel sufficient for matching `r` against `s`: the recursion depth of
`regMatch` is bounded by the pattern size per consumed character. -/
def enoughFuel (r : Reg) (s : List Char) : Nat :=
  (regSize r + 2) * (s.length + 2)

/-- Try to match `r` at the current position; returns the remaining
input after the (leftmost-greedy) match. -/
def matchHere (r : Reg) (prev : Option Char) (s : List Char) : Option (List Char) :=
  regMatch (enoughFuel r s) r prev s (fun _ rest => some rest)

/-- `r` matches at the current position or anywhere later in `s`. -/
def hasMatchFrom (r : Reg) (prev : Option Char) : List Char → Bool
  | [] => (matchHere r prev []).isSome
  | c :: t => (matchHere r prev (c :: t)).isSome || hasMatchFrom r (some c) t

/-- Global replace (model of `String.prototype.replace` with a
`g`-flagged regex): scan left to right, replace each leftmost match
with `repl`, continue after the match (the replacement text is not
rescanned; an empty match inserts the replacement and advances one
character, as in JavaScript).  `fuel` bounds the number of scan steps;
`fuel = s.length + 1` always suffices. -/
def replaceFrom (r : Reg) (repl : List Char) :
    Nat → Option Char → List Char → List Char
  | 0, _, s => s
  | _ + 1, prev, [] =>
      match matchHere r prev [] with
      | some _ => repl
      | none => []
  | fuel + 1, prev, c :: t =>
      match matchHere r prev (c :: t) with
      | none => c :: replaceFrom r repl fuel (some c) t
      | some rest =>
          let consumed := (c :: t).length - rest.length
          if consumed = 0 then
            repl ++ c :: replaceFrom r repl fuel (some c) t
          else
            repl ++ replaceFrom r repl fuel (((c :: t).take consumed).getLast?)
              ((c :: t).drop consumed)

/-- Apply one global-replace pass of pattern `r`, replacement
`[REDACTED]`, to a string. -/
def redactPass (r : Reg) (s : String) : String :=
  String.mk (replaceFrom r "[REDACTED]".toList (s.toList.length + 1) none s.toList)

/-! ### The nine sensitive-data patterns (`SecurityValidator.defaultSensitivePatterns`) -/

/-- Empty pattern (matches the empty string), used as the fold unit. -/
def rEps : Reg := Reg.rep 0 Reg.wb

/-- Concatenation of a list of patterns. -/
def rcat : List Reg → Reg
  | [] => rEps
  | [r] => r
  | r :: rs => Reg.seq r (rcat rs)

/-- Literal character. -/
def rch (c : Char) : Reg := Reg.cls (fun x => x = c)

/-- Literal string. -/
def rlit (s : String) : Reg := rcat (s.toList.map rch)

/-- Case-insensitive literal string (for the `i`-flagged pattern). -/
def rlitCI (s : String) : Reg :=
  rcat (s.toList.map (fun c => Reg.cls (fun x => lowerChar x = lowerChar c)))

/-- `r+` (one or more, greedy). -/
def rplus (r : Reg) : Reg := Reg.seq r (Reg.star r)

/-- `r{n,}` (at least `n`, greedy). -/
def rAtLeast (n : Nat) (r : Reg) : Reg := Reg.seq (Reg.rep n r) (Reg.star r)

/-- Digit class `\d`. -/
def rdigit : Reg := Reg.cls isDigitCh

/-- `\d{1,3}` (one to three digits, greedy). -/
def rdigit13 : Reg := rcat [rdigit, Reg.opt rdigit, Reg.opt rdigit]

/-- Credit card numbers: `\b\d{4}[-\s]?\d{4}[-\s]?\d{4}[-\s]?\d{4}\b`. -/
def patCreditCard : Reg :=
  let sep := Reg.opt (Reg.cls (fun c => c = '-' || isSpaceCh c))
  rcat [Reg.wb, Reg.rep 4 rdigit, sep, Reg.rep 4 rdigit, sep,
        Reg.rep 4 rdigit, sep, Reg.rep 4 rdigit, Reg.wb]

/-- Social security numbers: `\b\d{3}-\d{2}-\d{4}\b`. -/
def patSSN : Reg :=
  rcat [Reg.wb, Reg.rep 3 rdigit, rch '-', Reg.rep 2 rdigit, rch '-',
        Reg.rep 4 rdigit, Reg.wb]

/-- Email addresses:
`\b[A-Za-z0-9._%+-]+@[A-Za-z0-9.-]+\.[A-Z|a-z]{2,}\b`. -/
def patEmail : Reg :=
  let localCh := Reg.cls (fun c =>
    ('A' ≤ c ∧ c ≤ 'Z') || ('a' ≤ c ∧ c ≤ 'z') || ('0' ≤ c ∧ c ≤ '9') ||
    c = '.' || c = '_' || c = '%' || c = '+' || c = '-')
  let domainCh := Reg.cls (fun c =>
    ('A' ≤ c ∧ c ≤ 'Z') || ('a' ≤ c ∧ c ≤ 'z') || ('0' ≤ c ∧ c ≤ '9') ||
    c = '.' || c = '-')
  let tldCh := Reg.cls (fun c =>
    ('A' ≤ c ∧ c ≤ 'Z') || c = '|' || ('a' ≤ c ∧ c ≤ 'z'))
  rcat [Reg.wb, rplus localCh, rch '@', rplus domainCh, rch '.',
        rAtLeast 2 tldCh, Reg.wb]

/-- Phone numbers: `\b\d{3}[-.]?\d{3}[-.]?\d{4}\b`. -/
def patPhone : Reg :=
  let sep := Reg.opt (Reg.cls (fun c => c = '-' || c = '.'))
  rcat [Reg.wb, Reg.rep 3 rdigit, sep, Reg.rep 3 rdigit, sep,
        Reg.rep 4 rdigit, Reg.wb]

/-- IPv4 addresses: `\b(?:[0-9]{1,3}\.){3}[0-9]{1,3}\b`. -/
def patIPv4 : Reg :=
  rcat [Reg.wb, Reg.rep 3 (Reg.seq rdigit13 (rch '.')), rdigit13, Reg.wb]

/-- Base64url identifier class `[A-Za-z0-9_-]`. -/
def rB64Ch : Reg := Reg.cls (fun c =>
  ('A' ≤ c ∧ c ≤ 'Z') || ('a' ≤ c ∧ c ≤ 'z') || ('0' ≤ c ∧ c ≤ '9') ||
  c = '_' || c = '-')

/-- JWT tokens: `\beyJ[A-Za-z0-9_-]*\.[A-Za-z0-9_-]*\.[A-Za-z0-9_-]*\b`. -/
def patJWT : Reg :=
  rcat [Reg.wb, rlit "eyJ", Reg.star rB64Ch, rch '.', Reg.star rB64Ch,
        rch '.', Reg.star rB64Ch, Reg.wb]

/-- API keys: `\b[Aa]pi[_-]?[Kk]ey[:\s]*[A-Za-z0-9_-]{20,}\b`. -/
def patApiKey : Reg :=
  rcat [Reg.wb, Reg.cls (fun c => c = 'A' || c = 'a'), rlit "pi",
        Reg.opt (Reg.cls (fun c => c = '_' || c = '-')),
        Reg.cls (fun c => c = 'K' || c = 'k'), rlit "ey",
        Reg.star (Reg.cls (fun c => c = ':' || isSpaceCh c)),
        rAtLeast 20 rB64Ch, Reg.wb]

/-- Quote class `["']`. -/
def rQuote : Reg := Reg.cls (fun c => c = '"' || c = '\'')

/-- Passwords in key-value form (case-insensitive):
`["']?password["']?\s*[:\s=]\s*["'][^"']*["']?`. -/
def patPasswordKV : Reg :=
  rcat [Reg.opt rQuote, rlitCI "password", Reg.opt rQuote,
        Reg.star (Reg.cls isSpaceCh),
        Reg.cls (fun c => c = ':' || c = '=' || isSpaceCh c),
        Reg.star (Reg.cls isSpaceCh), rQuote,
        Reg.star (Reg.cls (fun c => ¬(c = '"' || c = '\''))),
        Reg.opt rQuote]

/-- Access tokens: `\b[Aa]ccess[_-]?[Tt]oken[:\s]*[A-Za-z0-9_-]{20,}\b`. -/
def patAccessToken : Reg :=
  rcat [Reg.wb, Reg.cls (fun c => c = 'A' || c = 'a'), rlit "ccess",
        Reg.opt (Reg.cls (fun c => c = '_' || c = '-')),
        Reg.cls (fun c => c = 'T' || c = 't'), rlit "oken",
        Reg.star (Reg.cls (fun c => c = ':' || isSpaceCh c)),
        rAtLeast 20 rB64Ch, Reg.wb]

/-- The default sensitive patterns, in source order. -/
def sensitivePatterns : List Reg :=
  [patCreditCard, patSSN, patEmail, patPhone, patIPv4, patJWT,
   patApiKey, patPasswordKV, patAccessToken]

/-- `SecurityValidator.sanitizeText`: each pattern is globally replaced
by `[REDACTED]`, in order. -/
def sanitizeText (s : String) : String :=
  sensitivePatterns.foldl (fun acc r => redactPass r acc) s

/-- Lower-case a string. -/
def lowerStr (s : String) : String := String.mk (lowerList s.toList)

/-- Key names treated as sensitive by `sanitizeObject`
(case-insensitive substring match). -/
def sensitiveKeys : List String :=
  ["password", "token", "secret", "key", "auth", "credential"]

/-- A key is sensitive when its lower-cased name contains one of the
sensitive key names. -/
def isSensitiveKey (k : String) : Bool :=
  sensitiveKeys.any (fun sk => strIncludes (lowerStr k) sk)

mutual

/-- `SecurityValidator.sanitizeObject`: primitives pass through, arrays
recurse element-wise, objects entry-wise.  An entry with a sensitive
key is wholesale replaced with `"[REDACTED]"`; otherwise string values
go through `sanitizeText` and object-typed values (including `null` and
arrays) recurse. -/
def sanitizeObject : JVal → JVal
  | JVal.arr xs => JVal.arr (sanitizeArr xs)
  | JVal.obj kvs => JVal.obj (sanitizeKVs kvs)
  | v => v

/-- Element-wise traversal of `sanitizeObject` over an array. -/
def sanitizeArr : List JVal → List JVal
  | [] => []
  | v :: vs => sanitizeObject v :: sanitizeArr vs

/-- Entry-wise traversal of `sanitizeObject` over an object. -/
def sanitizeKVs : List (String × JVal) → List (String × JVal)
  | [] => []
  | (k, v) :: kvs =>
      (if isSensitiveKey k then (k, JVal.str "[REDACTED]")
       else match v with
        | JVal.str s => (k, JVal.str (sanitizeText s))
        | JVal.null => (k, sanitizeObject JVal.null)
        | JVal.arr xs => (k, sanitizeObject (JVal.arr xs))
        | JVal.obj o => (k, sanitizeObject (JVal.obj o))
        | other => (k, other)) :: sanitizeKVs kvs

end

/-- `SecurityValidator.sanitizeErrorData`: redact `message`,
`stack_trace`, `context`, `breadcrumbs` and `user`.  The source guards
`message`/`stack_trace` with a truthiness check (empty strings skip the
pass). -/
def sanitizeErrorData (e : ErrorData) : ErrorData :=
  { e with
    message := if e.message ≠ "" then sanitizeText e.message else e.message
    stack_trace :=
      if e.stack_trace ≠ "" then sanitizeText e.stack_trace else e.stack_trace
    context := e.context.map sanitizeObject
    breadcrumbs := e.breadcrumbs.map (fun bcs => bcs.map (fun b =>
      { b with
        message := sanitizeText b.message
        data := b.data.map sanitizeObject }))
    user := e.user.map sanitizeObject }

/-! ## Fingerprint (`RateLimiter.generateErrorHash`) -/

/-- Base64 alphabet digit. -/
def b64Char (n : Nat) : Char :=
  if n < 26 then Char.ofNat ('A'.toNat + n)
  else if n < 52 then Char.ofNat ('a'.toNat + (n - 26))
  else if n < 62 then Char.ofNat ('0'.toNat + (n - 52))
  else if n = 62 then '+'
  else '/'

/-- Base64 encoding of a byte list (model of `btoa` on Latin-1 input). -/
def b64Encode : List Nat → List Char
  | [] => []
  | [b0] =>
      [b64Char (b0 / 4), b64Char (b0 % 4 * 16), '=', '=']
  | [b0, b1] =>
      [b64Char (b0 / 4), b64Char (b0 % 4 * 16 + b1 / 16),
       b64Char (b1 % 16 * 4), '=']
  | b0 :: b1 :: b2 :: rest =>
      b64Char (b0 / 4) :: b64Char (b0 % 4 * 16 + b1 / 16) ::
      b64Char (b1 % 16 * 4 + b2 / 64) :: b64Char (b2 % 64) :: b64Encode rest

/-- `btoa` on a string of Latin-1 characters. -/
def btoa (s : String) : String :=
  String.mk (b64Encode (s.toList.map (fun c => c.toNat % 256)))

/-- ASCII alphanumeric (the characters kept by
`.replace(/[^a-zA-Z0-9]/g, '')`). -/
def isAlnumCh (c : Char) : Bool :=
  ('a' ≤ c ∧ c ≤ 'z') || ('A' ≤ c ∧ c ≤ 'Z') || ('0' ≤ c ∧ c ≤ '9')

/-- `RateLimiter.generateErrorHash`: base64 of
`message ++ "-" ++ file ++ "-" ++ line`, stripped to alphanumerics and
truncated to 32 characters. -/
def generateErrorHash (e : ErrorData) : String :=
  let key := e.message ++ "-" ++ e.file ++ "-" ++ toString e.line
  String.mk (((btoa key).toList.filter isAlnumCh).take 32)

/-! ## Rate limiter (`RateLimiter`) -/

/-- Rate limiter configuration. -/
structure RLConfig where
  maxRequests : Nat
  windowMs : Int
  duplicateErrorWindow : Int

/-- Rate limiter state: admitted-request timestamps and the
fingerprint-last-seen map (a JavaScript `Map`, modelled as an
insertion-ordered association list). -/
structure RLState where
  requests : List Int
  errorHashes : List (String × Int)

/-- `Map.prototype.get`. -/
def mapGet (m : List (String × Int)) (k : String) : Option Int :=
  (m.find? (fun p => p.1 = k)).map (fun p => p.2)

/-- `Map.prototype.set` (updates in place, preserving insertion order). -/
def mapSet : List (String × Int) → String → Int → List (String × Int)
  | [], k, v => [(k, v)]
  | (k', v') :: t, k, v =>
      if k' = k then (k, v) :: t else (k', v') :: mapSet t k v

/-- Admission decision returned by the rate limiter. -/
structure RateLimitInfo where
  allowed : Bool
  remaining : Nat
  resetTime : Int
  reason : Option String

/-- `RateLimiter.removeExpiredRequests`: keep timestamps strictly newer
than `now - windowMs`. -/
def removeExpiredRequests (cfg : RLConfig) (now : Int) (s : RLState) : RLState :=
  { s with requests := s.requests.filter (fun t => now - cfg.windowMs < t) }

/-- `RateLimiter.getNextResetTime`: `now + windowMs` when no requests
are recorded, otherwise the oldest request plus the window. -/
def getNextResetTime (cfg : RLConfig) (now : Int) (s : RLState) : Int :=
  match s.requests with
  | [] => now + cfg.windowMs
  | t :: ts => ts.foldl min t + cfg.windowMs

/-- Duplicate test of `RateLimiter.canSendError`: the fingerprint was
last seen within `duplicateErrorWindow` (the `lastSeen &&` truthiness
guard also treats a stored timestamp `0` as absent, as in the
source). -/
def duplicateHit (cfg : RLConfig) (now : Int) (e : ErrorData) (s : RLState) : Bool :=
  match mapGet s.errorHashes (generateErrorHash e) with
  | some lastSeen =>
      decide (lastSeen ≠ 0) && decide (now - lastSeen < cfg.duplicateErrorWindow)
  | none => false

/-- `RateLimiter.canSendError`: prune the window, deny with
`"Rate limit exceeded"` when the window is full, otherwise deny with
`"Duplicate error"` on a duplicate hit, otherwise allow.  Returns the
decision and the updated state. -/
def rlCanSendError (cfg : RLConfig) (now : Int) (e : ErrorData) (s : RLState) :
    RateLimitInfo × RLState :=
  let s1 := removeExpiredRequests cfg now s
  if cfg.maxRequests ≤ s1.requests.length then
    ({ allowed := false, remaining := 0, resetTime := getNextResetTime cfg now s1,
       reason := some "Rate limit exceeded" }, s1)
  else
    if duplicateHit cfg now e s1 then
      ({ allowed := false, remaining := cfg.maxRequests - s1.requests.length,
         resetTime := getNextResetTime cfg now s1,
         reason := some "Duplicate error" }, s1)
    else
      ({ allowed := true, remaining := cfg.maxRequests - s1.requests.length - 1,
         resetTime := getNextResetTime cfg now s1, reason := none }, s1)

/-- `RateLimiter.markErrorSent`: append the admission timestamp and
record the fingerprint as seen now. -/
def markErrorSent (now : Int) (e : ErrorData) (s : RLState) : RLState :=
  { requests := s.requests ++ [now]
    errorHashes := mapSet s.errorHashes (generateErrorHash e) now }

/-! ## Durable store

`localStorage`, a string-keyed store.  The two values the core persists
are modelled structurally (their JSON serialization round-trips). -/

/-- Item of the offline queue (`OfflineQueueItem`). -/
structure QueuedItem where
  id : Nat
  errorData : ErrorData
  timestamp : Int
  attempts : Nat

/-- Persisted quota ledger
(`QuotaManager.saveToStorage` payload). -/
structure QuotaState where
  dailyCount : Nat
  monthlyCount : Nat
  burstCounts : List Int
  lastResetDate : String
  lastResetMonth : String

/-- Values the SDK persists. -/
inductive StoredVal : Type
  | quotaLedger (s : QuotaState)
  | offlineQueue (q : List QueuedItem)

/-- The durable key-value store. -/
def Store : Type := String → Option StoredVal

/-- Write a key. -/
def storeSet (st : Store) (k : String) (v : StoredVal) : Store :=
  fun k' => if k' = k then some v else st k'

/-- Key under which the quota ledger is persisted. -/
def quotaStorageKey : String := "error-explorer-quota"

/-- Key under which the offline queue is persisted. -/
def offlineQueueKey : String := "error-explorer-offline-queue"

/-! ## Quota accountant (`QuotaManager`) -/

/-- Quota configuration. -/
structure QuotaConfig where
  dailyLimit : Nat
  monthlyLimit : Nat
  payloadSizeLimit : Nat
  burstLimit : Nat
  burstWindowMs : Int

/-- Usage statistics (`QuotaStats`). -/
structure QuotaStats where
  dailyUsage : Nat
  monthlyUsage : Nat
  dailyRemaining : Nat
  monthlyRemaining : Nat
  burstUsage : Nat
  burstRemaining : Nat
  isOverQuota : Bool
  nextResetTime : Int

/-- Admission decision (`QuotaResult`). -/
structure QuotaResult where
  allowed : Bool
  reason : Option String
  quotaStats : QuotaStats

/-- `QuotaManager.cleanupBurstCounts`: keep burst timestamps strictly
newer than `now - burstWindowMs`. -/
def cleanupBurstCounts (cfg : QuotaConfig) (now : Int) (s : QuotaState) : QuotaState :=
  { s with burstCounts := s.burstCounts.filter (fun t => now - cfg.burstWindowMs < t) }

/-- `QuotaManager.cleanupOldData`: reset the daily (resp. monthly)
counter when the current date (resp. month) key differs from the stored
one, then prune the burst window.  `dateKey`/`monthKey` are the clock
reads the source computes from `new Date()`. -/
def cleanupOldData (cfg : QuotaConfig) (dateKey monthKey : String) (now : Int)
    (s : QuotaState) : QuotaState :=
  let s1 := if dateKey ≠ s.lastResetDate then
      { s with dailyCount := 0, lastResetDate := dateKey } else s
  let s2 := if monthKey ≠ s1.lastResetMonth then
      { s1 with monthlyCount := 0, lastResetMonth := monthKey } else s1
  cleanupBurstCounts cfg now s2

/-- `QuotaManager.getStats` (the `nextReset` parameter stands for the
source's computed next-midnight timestamp). -/
def getQuotaStats (cfg : QuotaConfig) (dateKey monthKey : String) (now nextReset : Int)
    (s : QuotaState) : QuotaStats × QuotaState :=
  let s1 := cleanupOldData cfg dateKey monthKey now s
  ({ dailyUsage := s1.dailyCount
     monthlyUsage := s1.monthlyCount
     dailyRemaining := cfg.dailyLimit - s1.dailyCount
     monthlyRemaining := cfg.monthlyLimit - s1.monthlyCount
     burstUsage := s1.burstCounts.length
     burstRemaining := cfg.burstLimit - s1.burstCounts.length
     isOverQuota := cfg.dailyLimit ≤ s1.dailyCount ∨
       cfg.monthlyLimit ≤ s1.monthlyCount ∨ cfg.burstLimit ≤ s1.burstCounts.length
     nextResetTime := nextReset }, s1)

/-- `QuotaManager.canSendError`: prune, then check payload size, burst,
daily and monthly limits in that order; the first failing limit's
reason is returned and no counter is incremented. -/
def quotaCanSendError (cfg : QuotaConfig) (dateKey monthKey : String)
    (now nextReset : Int) (payloadSize : Nat) (s : QuotaState) :
    QuotaResult × QuotaState :=
  let s1 := cleanupOldData cfg dateKey monthKey now s
  let p := getQuotaStats cfg dateKey monthKey now nextReset s1
  let stats := p.1
  let s2 := p.2
  if cfg.payloadSizeLimit < payloadSize then
    let lim := cfg.payloadSizeLimit
    ({ allowed := false
       reason := some s!"Payload size ({payloadSize}) exceeds limit ({lim})"
       quotaStats := stats }, s2)
  else
    let s3 := cleanupBurstCounts cfg now s2
    if cfg.burstLimit ≤ s3.burstCounts.length then
      ({ allowed := false, reason := some "Burst limit exceeded",
         quotaStats := stats }, s3)
    else if cfg.dailyLimit ≤ s3.dailyCount then
      ({ allowed := false, reason := some "Daily quota exceeded",
         quotaStats := stats }, s3)
    else if cfg.monthlyLimit ≤ s3.monthlyCount then
      ({ allowed := false, reason := some "Monthly quota exceeded",
         quotaStats := stats }, s3)
    else
      ({ allowed := true, reason := none, quotaStats := stats }, s3)

/-- `QuotaManager.saveToStorage`. -/
def quotaSave (s : QuotaState) (st : Store) : Store :=
  storeSet st quotaStorageKey (StoredVal.quotaLedger s)

/-- `QuotaManager.recordUsage`: reconcile, then charge the daily and
monthly counters and append a burst timestamp, then persist. -/
def recordUsage (cfg : QuotaConfig) (dateKey monthKey : String) (now : Int)
    (s : QuotaState) (st : Store) : QuotaState × Store :=
  let s1 := cleanupOldData cfg dateKey monthKey now s
  let s2 := { s1 with
    dailyCount := s1.dailyCount + 1
    monthlyCount := s1.monthlyCount + 1
    burstCounts := s1.burstCounts ++ [now] }
  (s2, quotaSave s2 st)

/-- `QuotaManager.resetQuotas`: zero the daily and monthly counters and
the burst timestamps, and persist the zeroed ledger. -/
def resetQuotas (s : QuotaState) (st : Store) : QuotaState × Store :=
  let z := { s with dailyCount := 0, monthlyCount := 0, burstCounts := [] }
  (z, quotaSave z st)

/-- `QuotaManager.destroy` (delegates to `resetQuotas`). -/
def quotaDestroy (s : QuotaState) (st : Store) : QuotaState × Store :=
  resetQuotas s st

/-! ## Retry executor (`RetryManager`) -/

/-- A JavaScript `Error` as inspected by the retry classifier. -/
structure JsError where
  name : String
  message : String
deriving DecidableEq

/-- `RetryManager.shouldNotRetry`: the error message contains one of
the status codes 400/401/403/404, or the error class is
`ValidationError` or `TypeError`. -/
def shouldNotRetry (e : JsError) : Bool :=
  strIncludes e.message "400" || strIncludes e.message "401" ||
  strIncludes e.message "403" || strIncludes e.message "404" ||
  e.name = "ValidationError" || e.name = "TypeError"

/-- Final result of `executeWithRetry` (`RetryResult`; the wall-clock
`totalTime` field is not modelled, no claim concerns it). -/
structure RetryResult (T : Type) where
  success : Bool
  result : Option T
  error : Option JsError
  attempts : Nat

/-- Loop body of `RetryManager.executeWithRetry`.  The async operation
is modelled as a function from the attempt index to its outcome; the
second component of the result counts how many times the operation was
invoked.  `fuel` is `maxRetries + 1 - attempt` at every call. -/
def executeWithRetryAux (op : Nat → Except JsError T) (maxRetries : Nat) :
    Nat → Nat → RetryResult T × Nat
  | _, 0 =>
      ({ success := false, result := none, error := none,
         attempts := maxRetries + 1 }, 0)
  | attempt, fuel + 1 =>
      match op attempt with
      | Except.ok v =>
          ({ success := true, result := some v, error := none,
             attempts := attempt + 1 }, attempt + 1)
      | Except.error e =>
          if attempt = maxRetries ∨ shouldNotRetry e then
            ({ success := false, result := none, error := some e,
               attempts := maxRetries + 1 }, attempt + 1)
          else
            executeWithRetryAux op maxRetries (attempt + 1) fuel

/-- `RetryManager.executeWithRetry`: at most `maxRetries + 1` attempts;
breaking out early on the last attempt or on a non-retryable error; on
failure the returned `attempts` field is `maxRetries + 1`.  Also
returns the number of times the operation was actually invoked. -/
def executeWithRetry (op : Nat → Except JsError T) (maxRetries : Nat) :
    RetryResult T × Nat :=
  executeWithRetryAux op maxRetries 0 (maxRetries + 1)

/-! ## Circuit breaker (`CircuitBreaker`) -/

/-- Circuit state. -/
inductive CBKind : Type
  | closed
  | opened
  | halfOpen
deriving DecidableEq

/-- Circuit breaker configuration. -/
structure CBConfig where
  failureThreshold : Nat
  resetTimeout : Int
  monitoringPeriod : Int
  minimumRequests : Nat

/-- Circuit breaker state. -/
structure CBState where
  kind : CBKind
  failureCount : Nat
  successCount : Nat
  lastFailureTime : Int
  stateChangeTime : Int
  requests : List (Int × Bool)

/-- `CircuitBreaker.shouldAttemptReset`. -/
def shouldAttemptReset (cfg : CBConfig) (now : Int) (s : CBState) : Bool :=
  cfg.resetTimeout ≤ now - s.stateChangeTime

/-- `CircuitBreaker.canExecute`: CLOSED admits; OPEN admits only when
the reset timeout has elapsed, transitioning lazily to HALF_OPEN;
HALF_OPEN admits. -/
def canExecute (cfg : CBConfig) (now : Int) (s : CBState) : Bool × CBState :=
  match s.kind with
  | CBKind.closed => (true, s)
  | CBKind.opened =>
      if shouldAttemptReset cfg now s then
        (true, { s with kind := CBKind.halfOpen, stateChangeTime := now })
      else (false, s)
  | CBKind.halfOpen => (true, s)

/-- `CircuitBreaker.cleanupRequests`: keep outcome records strictly
newer than `now - monitoringPeriod`. -/
def cleanupRequests (cfg : CBConfig) (now : Int) (s : CBState) : CBState :=
  { s with requests := s.requests.filter (fun r => now - cfg.monitoringPeriod < r.1) }

/-- `CircuitBreaker.shouldOpenCircuit` on an already-pruned window:
at least `minimumRequests` samples and failure rate at least
`failureThreshold / 10` (the float comparison
`failures / length ≥ threshold / 10` is expressed exactly over the
rationals as `10 * failures ≥ threshold * length`). -/
def shouldOpenCircuit (cfg : CBConfig) (s : CBState) : Bool :=
  if s.requests.length < cfg.minimumRequests then false
  else
    let failures := (s.requests.filter (fun r => ¬r.2)).length
    cfg.failureThreshold * s.requests.length ≤ 10 * failures

/-- `CircuitBreaker.onSuccess`. -/
def onSuccess (cfg : CBConfig) (now : Int) (s : CBState) : CBState :=
  let s1 := { s with
    successCount := s.successCount + 1
    requests := s.requests ++ [(now, true)] }
  let s2 := if s1.kind = CBKind.halfOpen then
      { s1 with kind := CBKind.closed, failureCount := 0, stateChangeTime := now }
    else s1
  cleanupRequests cfg now s2

/-- `CircuitBreaker.onFailure` (the window is pruned inside
`shouldOpenCircuit` before the rate test, and again afterwards). -/
def onFailure (cfg : CBConfig) (now : Int) (s : CBState) : CBState :=
  let s1 := { s with
    failureCount := s.failureCount + 1
    lastFailureTime := now
    requests := s.requests ++ [(now, false)] }
  let s2 := cleanupRequests cfg now s1
  let s3 := if shouldOpenCircuit cfg s2 then
      { s2 with kind := CBKind.opened, stateChangeTime := now }
    else s2
  cleanupRequests cfg now s3

/-! ## Offline queue (`OfflineManager`) -/

/-- Offline queue configuration (constructor arguments). -/
structure OfflineConfig where
  maxQueueSize : Nat
  maxAge : Int

/-- Offline queue state (the `processingQueue` re-entrancy flag guards
event-loop interleavings outside this sequential model). -/
structure OfflineState where
  queue : List QueuedItem
  isOnline : Bool

/-- `OfflineManager.cleanupQueue`: drop items enqueued more than
`maxAge` ago. -/
def cleanupQueue (cfg : OfflineConfig) (now : Int) (q : List QueuedItem) :
    List QueuedItem :=
  q.filter (fun it => now - cfg.maxAge < it.timestamp)

/-- `OfflineManager.queueError`: prune expired items, append a fresh
item with `attempts = 0` (id supplied by the caller, standing for the
random id generator), evict the oldest items beyond `maxQueueSize`
(stable sort by timestamp, keep the newest), persist. -/
def queueError (cfg : OfflineConfig) (now : Int) (freshId : Nat) (e : ErrorData)
    (s : OfflineState) (st : Store) : OfflineState × Store :=
  let item : QueuedItem := { id := freshId, errorData := e, timestamp := now, attempts := 0 }
  let q1 := cleanupQueue cfg now s.queue ++ [item]
  let q2 := if cfg.maxQueueSize < q1.length then
      (q1.mergeSort (fun a b => a.timestamp ≤ b.timestamp)).drop
        (q1.length - cfg.maxQueueSize)
    else q1
  ({ s with queue := q2 }, storeSet st offlineQueueKey (StoredVal.offlineQueue q2))

/-- Outcome of handing a report to the transport layer. -/
inductive SendOutcome : Type
  | delivered           -- the webhook POST (possibly after retries) succeeded
  | queued              -- durably enqueued in the offline queue
  | pendingBatch        -- sitting in the in-memory batch, awaiting flush
  | batchLost           -- batch flush failed; the batch is discarded
  | retryExhausted      -- no offline support and all retries failed; discarded
deriving DecidableEq

/-- `OfflineManager.handleError`: when online, attempt a direct send
(queueing on failure); when offline, queue.  `sendOk` abstracts the
success of `sendErrorDirectly` (the retry-wrapped POST); the last
component counts transport invocations (calls that reach the HTTP
layer). -/
def handleError (cfg : OfflineConfig) (now : Int) (freshId : Nat)
    (sendOk : ErrorData → Bool) (e : ErrorData) (s : OfflineState) (st : Store) :
    SendOutcome × OfflineState × Store × Nat :=
  if s.isOnline then
    if sendOk e then (SendOutcome.delivered, s, st, 1)
    else
      let p := queueError cfg now freshId e s st
      (SendOutcome.queued, p.1, p.2, 1)
  else
    let p := queueError cfg now freshId e s st
    (SendOutcome.queued, p.1, p.2, 0)

/-- `OfflineManager.processQueue` (the queue-rewriting core, given that
the in-progress guard passed): iterate a snapshot, increment `attempts`
on failure, collect ids of items to remove (sent successfully, or
failed with `attempts ≥ 3` after the increment), rewrite the queue as
the complement and persist. -/
def processQueue (sendOk : ErrorData → Bool) (s : OfflineState) (st : Store) :
    OfflineState × Store :=
  if ¬s.isOnline then (s, st)
  else
    let afterSend := s.queue.map (fun it =>
      if sendOk it.errorData then it else { it with attempts := it.attempts + 1 })
    let processedIds := (afterSend.filter (fun it =>
      sendOk it.errorData || decide (3 ≤ it.attempts))).map (fun it => it.id)
    let q := afterSend.filter (fun it => ¬processedIds.contains it.id)
    ({ s with queue := q }, storeSet st offlineQueueKey (StoredVal.offlineQueue q))

/-! ## Batch aggregator (`BatchManager`) -/

/-- Batch configuration. -/
structure BatchConfig where
  maxSize : Nat
  maxWaitTime : Int
  maxPayloadSize : Nat

/-- `BatchManager.shouldSendBatch` on the batch after the push:
size cap reached, or estimated serialized size at the payload cap
(`estSize` abstracts `estimateBatchSize`, the JSON byte size). -/
def shouldSendBatch (cfg : BatchConfig) (estSize : Nat) (batch : List ErrorData) : Bool :=
  cfg.maxSize ≤ batch.length || cfg.maxPayloadSize ≤ estSize

/-! ## Pipeline coordinator (`ErrorReporter`) -/

/-- Reporter configuration (the fields the modelled paths read). -/
structure PipelineCfg where
  enabled : Bool
  enableBatching : Bool
  enableOfflineSupport : Bool
  maxPayloadSize : Nat
  batch : BatchConfig
  offline : OfflineConfig
  cb : CBConfig
  rl : RLConfig
  quota : QuotaConfig

/-- Environment oracles: JSON byte sizes (`new Blob([...]).size`),
transport outcomes (success of the retry-wrapped POST for a single
report, for the one extra retry round of the no-offline path, and for a
batch envelope) and the id generator for queued items. -/
structure Oracles where
  jsonSize : ErrorData → Nat
  batchJsonSize : List ErrorData → Nat
  sendOk : ErrorData → Bool
  retrySendOk : ErrorData → Bool
  batchSendOk : List ErrorData → Bool
  freshId : Nat

/-- Health-monitor counters touched by the pipeline (`SDKMonitor`). -/
structure Monitor where
  errorsReported : Nat
  errorsSuppressed : Nat
  retryAttempts : Nat
deriving DecidableEq

/-- `SDKMonitor.trackSuppressedError` (every drop records exactly one
suppression). -/
def trackSuppressed (m : Monitor) : Monitor :=
  { m with errorsSuppressed := m.errorsSuppressed + 1 }

/-- Combined mutable state owned by the reporter. -/
structure PipelineState where
  isInitialized : Bool
  cb : CBState
  offline : OfflineState
  batch : List ErrorData
  rl : RLState
  quota : QuotaState
  store : Store
  monitor : Monitor

/-- Result of the dispatch step: outcome, updated state, transport
invocation count. -/
structure DispatchResult where
  outcome : SendOutcome
  state : PipelineState
  transportCalls : Nat

/-- `ErrorReporter.sendError`: with batching enabled, hand to the batch
aggregator (flushing through `sendBatchDirectly`, which is not guarded
by the circuit breaker; a failed flush discards the batch); otherwise
consult the circuit breaker: when it denies, divert to
`offlineManager.handleError`; when it admits, run the operation under
`execute` — `handleError` when offline support is on (it never throws),
else the direct send with one extra retry round on failure. -/
def sendErrorModel (cfg : PipelineCfg) (orc : Oracles) (now : Int)
    (e : ErrorData) (st : PipelineState) : DispatchResult :=
  if cfg.enableBatching then
    let b1 := st.batch ++ [e]
    if shouldSendBatch cfg.batch (orc.batchJsonSize b1) b1 then
      if orc.batchSendOk b1 then
        { outcome := SendOutcome.delivered, state := { st with batch := [] },
          transportCalls := 1 }
      else
        { outcome := SendOutcome.batchLost, state := { st with batch := [] },
          transportCalls := 1 }
    else
      { outcome := SendOutcome.pendingBatch, state := { st with batch := b1 },
        transportCalls := 0 }
  else
    let c := canExecute cfg.cb now st.cb
    if ¬c.1 then
      let h := handleError cfg.offline now orc.freshId orc.sendOk e st.offline st.store
      { outcome := h.1, state := { st with cb := c.2, offline := h.2.1, store := h.2.2.1 },
        transportCalls := h.2.2.2 }
    else if cfg.enableOfflineSupport then
      let h := handleError cfg.offline now orc.freshId orc.sendOk e st.offline st.store
      { outcome := h.1,
        state := { st with
          cb := onSuccess cfg.cb now c.2
          offline := h.2.1
          store := h.2.2.1 },
        transportCalls := h.2.2.2 }
    else if orc.sendOk e then
      { outcome := SendOutcome.delivered,
        state := { st with cb := onSuccess cfg.cb now c.2 }, transportCalls := 1 }
    else
      let cb2 := onFailure cfg.cb now c.2
      let m2 := { st.monitor with retryAttempts := st.monitor.retryAttempts + 1 }
      if orc.retrySendOk e then
        { outcome := SendOutcome.delivered,
          state := { st with cb := cb2, monitor := m2 }, transportCalls := 2 }
      else
        { outcome := SendOutcome.retryExhausted,
          state := { st with cb := cb2, monitor := m2 }, transportCalls := 2 }

/-- `SecurityValidator.validatePayload` reduced to its accept
condition: serialized size within `maxPayloadSize` and the required
fields (`message`, `project`, `timestamp`) non-empty (sensitive-data
findings are warnings and never reject). -/
def validatePayloadOk (maxPayloadSize size : Nat) (e : ErrorData) : Bool :=
  size ≤ maxPayloadSize && e.message ≠ "" && e.project ≠ "" && e.timestamp ≠ ""

/-- Terminal outcome of a capture call. -/
inductive CaptureOutcome : Type
  | disabledSkip                       -- SDK disabled or not initialized
  | droppedValidation                  -- payload validation failed (accounted)
  | droppedBeforeSend                  -- user hook returned null (accounted)
  | droppedRateLimited (reason : String)
  | droppedQuota (reason : String)
  | dispatched (o : SendOutcome)
deriving DecidableEq

/-- Result of a capture call. -/
structure CaptureResult where
  outcome : CaptureOutcome
  state : PipelineState
  transportCalls : Nat

/-- `ErrorReporter.captureException`: track, validate, redact, apply
the `beforeSend` hook, check the rate limiter, check the quota, charge
both accountants, dispatch.  `dateKey`/`monthKey`/`now`/`nextReset`
are the clock reads; every drop records exactly one suppression. -/
def captureModel (cfg : PipelineCfg) (orc : Oracles)
    (beforeSend : Option (ErrorData → Option ErrorData))
    (dateKey monthKey : String) (now nextReset : Int)
    (e : ErrorData) (st : PipelineState) : CaptureResult :=
  if ¬(cfg.enabled && st.isInitialized) then
    { outcome := CaptureOutcome.disabledSkip, state := st, transportCalls := 0 }
  else
    let st := { st with monitor :=
      { st.monitor with errorsReported := st.monitor.errorsReported + 1 } }
    if ¬validatePayloadOk cfg.maxPayloadSize (orc.jsonSize e) e then
      { outcome := CaptureOutcome.droppedValidation,
        state := { st with monitor := trackSuppressed st.monitor }, transportCalls := 0 }
    else
      let sanitized := sanitizeErrorData e
      let filtered := match beforeSend with
        | none => some sanitized
        | some f => f sanitized
      match filtered with
      | none =>
          { outcome := CaptureOutcome.droppedBeforeSend,
            state := { st with monitor := trackSuppressed st.monitor },
            transportCalls := 0 }
      | some finalData =>
          let rlr := rlCanSendError cfg.rl now finalData st.rl
          if ¬rlr.1.allowed then
            { outcome := CaptureOutcome.droppedRateLimited
                (rlr.1.reason.getD "Rate limited")
              state := { st with rl := rlr.2, monitor := trackSuppressed st.monitor }
              transportCalls := 0 }
          else
            let psize := orc.jsonSize finalData
            let qr := quotaCanSendError cfg.quota dateKey monthKey now nextReset
              psize st.quota
            if ¬qr.1.allowed then
              { outcome := CaptureOutcome.droppedQuota
                  (qr.1.reason.getD "Quota exceeded"),
                state := { st with
                  rl := rlr.2
                  quota := qr.2
                  monitor := trackSuppressed st.monitor },
                transportCalls := 0 }
            else
              let rl2 := markErrorSent now finalData rlr.2
              let qp := recordUsage cfg.quota dateKey monthKey now qr.2 st.store
              let st2 := { st with rl := rl2, quota := qp.1, store := qp.2 }
              let d := sendErrorModel cfg orc now finalData st2
              { outcome := CaptureOutcome.dispatched d.outcome, state := d.state,
                transportCalls := d.transportCalls }

/-- `RateLimiter.destroy`: clear timestamps and fingerprints. -/
def rlDestroy (_ : RLState) : RLState :=
  { requests := [], errorHashes := [] }

/-- `OfflineManager.destroy`: clear the queue and persist the empty
queue. -/
def offlineDestroy (s : OfflineState) (st : Store) : OfflineState × Store :=
  ({ s with queue := [] }, storeSet st offlineQueueKey (StoredVal.offlineQueue []))

/-- `ErrorReporter.destroy`: tear down the rate limiter, the offline
manager, the quota manager and the batch aggregator (whose final flush
touches only the transport), and mark the SDK uninitialized. -/
def reporterDestroy (st : PipelineState) : PipelineState :=
  let rl2 := rlDestroy st.rl
  let op := offlineDestroy st.offline st.store
  let qp := quotaDestroy st.quota op.2
  { st with
    isInitialized := false
    rl := rl2
    offline := op.1
    quota := qp.1
    store := qp.2
    batch := [] }

/-! ## Concrete fixtures used by witnesses and counterexamples -/

/-- A plain report. -/
def sampleError : ErrorData :=
  { message := "boom", exception_class := "Error", stack_trace := "",
    file := "app.ts", line := 10, project := "demo",
    environment := "production", timestamp := "2024-01-01T00:00:00Z",
    context := none, breadcrumbs := none, user := none }

/-- The empty durable store. -/
def emptyStore : Store := fun _ => none

/-- Default-like configuration (the source defaults, scaled where a
witness needs smaller counters). -/
def sampleCfg : PipelineCfg :=
  { enabled := true
    enableBatching := false
    enableOfflineSupport := true
    maxPayloadSize := 1048576
    batch := { maxSize := 5, maxWaitTime := 5000, maxPayloadSize := 102400 }
    offline := { maxQueueSize := 50, maxAge := 86400000 }
    cb := { failureThreshold := 5, resetTimeout := 60000,
            monitoringPeriod := 60000, minimumRequests := 3 }
    rl := { maxRequests := 10, windowMs := 60000, duplicateErrorWindow := 5000 }
    quota := { dailyLimit := 1000, monthlyLimit := 10000,
               payloadSizeLimit := 1048576, burstLimit := 50,
               burstWindowMs := 60000 } }

/-- Oracles for a world where every transport attempt succeeds. -/
def happyOracles : Oracles :=
  { jsonSize := fun _ => 100
    batchJsonSize := fun _ => 500
    sendOk := fun _ => true
    retrySendOk := fun _ => true
    batchSendOk := fun _ => true
    freshId := 1 }

/-- A fresh pipeline state. -/
def freshState : PipelineState :=
  { isInitialized := true
    cb := { kind := CBKind.closed, failureCount := 0, successCount := 0,
            lastFailureTime := 0, stateChangeTime := 0, requests := [] }
    offline := { queue := [], isOnline := true }
    batch := []
    rl := { requests := [], errorHashes := [] }
    quota := { dailyCount := 0, monthlyCount := 0, burstCounts := [],
               lastResetDate := "2024-01-01", lastResetMonth := "2024-01" }
    store := emptyStore
    monitor := { errorsReported := 0, errorsSuppressed := 0, retryAttempts := 0 } }

/-! # Theorems -/

/-! ## C8 — fingerprint determinism -/

/-- C8: the fingerprint is a deterministic function of the triple
`(message, file, line)`: reports agreeing on those three fields get
equal fingerprints.  (The claim's complementary "differing triples
differ with high probability" is an informal statement about the hash
distribution and is not formalised; collisions do exist, e.g. via `-`
in the message.) -/
theorem fingerprint_deterministic (e1 e2 : ErrorData)
    (hm : e1.message = e2.message) (hf : e1.file = e2.file)
    (hl : e1.line = e2.line) :
    generateErrorHash e1 = generateErrorHash e2 := by
  simp only [generateErrorHash, hm, hf, hl]

/-- Witness for C8: two reports differing in stack trace but agreeing
on the triple hash identically. -/
theorem fingerprint_deterministic_witness :
    generateErrorHash sampleError =
      generateErrorHash { sampleError with stack_trace := "at main" } :=
  fingerprint_deterministic _ _ rfl rfl rfl

/-! ## C10 — teardown erases the persisted quota ledger -/

/-- C10: `ErrorReporter.destroy` (through `QuotaManager.destroy`,
i.e. `resetQuotas`) zeroes the daily count, the monthly count and the
burst timestamps, and persists the zeroed ledger to the durable store
under the quota key. -/
theorem destroy_zeroes_quota (st : PipelineState) :
    (reporterDestroy st).quota.dailyCount = 0 ∧
    (reporterDestroy st).quota.monthlyCount = 0 ∧
    (reporterDestroy st).quota.burstCounts = [] ∧
    (reporterDestroy st).quota.lastResetDate = st.quota.lastResetDate ∧
    (reporterDestroy st).quota.lastResetMonth = st.quota.lastResetMonth ∧
    (reporterDestroy st).store quotaStorageKey =
      some (StoredVal.quotaLedger ((reporterDestroy st).quota)) ∧
    (reporterDestroy st).isInitialized = false := by
  refine ⟨rfl, rfl, rfl, rfl, rfl, ?_, rfl⟩
  simp [reporterDestroy, quotaDestroy, resetQuotas, quotaSave, storeSet,
    offlineDestroy]

/-! ## C6 — non-retryable classification and the `attempts` field -/

/-- A non-retryable transport error. -/
def err400 : JsError :=
  { name := "Error", message := "Request failed with status code 400" }

/-- Counterexample for C6: with `maxRetries = 3` (the default) and a
first attempt failing with a 400-class error, the operation is invoked
exactly once, yet the returned `attempts` field is `maxRetries + 1 = 4`,
not the number of invocations actually performed. -/
theorem retry_attempts_counterexample :
    (executeWithRetry (T := Unit) (fun _ => Except.error err400) 3).2 = 1 ∧
    (executeWithRetry (T := Unit) (fun _ => Except.error err400) 3).1.success = false ∧
    (executeWithRetry (T := Unit) (fun _ => Except.error err400) 3).1.attempts = 4 ∧
    (executeWithRetry (T := Unit) (fun _ => Except.error err400) 3).1.attempts ≠
      (executeWithRetry (T := Unit) (fun _ => Except.error err400) 3).2 := by
  decide

/-- C6 (amended): when the first attempt throws a non-retryable error
(message matching 400/401/403/404, or class `ValidationError` /
`TypeError`), no further attempt is made — the operation runs exactly
once — and the result is a failure carrying that error; its `attempts`
field however is always `maxRetries + 1`, independent of the number of
invocations performed. -/
theorem retry_nonretryable {T : Type} (op : Nat → Except JsError T)
    (maxRetries : Nat) (e : JsError)
    (h0 : op 0 = Except.error e) (hnr : shouldNotRetry e = true) :
    (executeWithRetry op maxRetries).2 = 1 ∧
    (executeWithRetry op maxRetries).1.success = false ∧
    (executeWithRetry op maxRetries).1.error = some e ∧
    (executeWithRetry op maxRetries).1.attempts = maxRetries + 1 := by
  unfold executeWithRetry executeWithRetryAux
  rw [h0]
  simp [hnr]

/-- Witness for C6 (amended) at `maxRetries = 3` and a 400 error. -/
theorem retry_nonretryable_witness :
    (executeWithRetry (T := Unit) (fun _ => Except.error err400) 3).2 = 1 ∧
    (executeWithRetry (T := Unit) (fun _ => Except.error err400) 3).1.success = false ∧
    (executeWithRetry (T := Unit) (fun _ => Except.error err400) 3).1.error = some err400 ∧
    (executeWithRetry (T := Unit) (fun _ => Except.error err400) 3).1.attempts = 3 + 1 :=
  retry_nonretryable (fun _ => Except.error err400) 3 err400 rfl (by decide)

/-! ## C5 — rate-limit stage check order -/

/-- Rate limiter configuration with a window cap of one request. -/
def rlDupCfg : RLConfig :=
  { maxRequests := 1, windowMs := 60000, duplicateErrorWindow := 5000 }

/-- State in which the window is full *and* the sample report's
fingerprint was seen 1000 ms ago. -/
def rlDupState : RLState :=
  { requests := [1000], errorHashes := [(generateErrorHash sampleError, 1000)] }

/-- Counterexample for C5: at time 2000 the fingerprint of the sample
report was last seen within `duplicateErrorWindow` *and* the window
already holds `maxRequests` admitted timestamps, yet `canSendError`
returns reason `"Rate limit exceeded"`, not `"Duplicate error"` — the
window-count cap is checked first. -/
theorem rl_order_counterexample :
    duplicateHit rlDupCfg 2000 sampleError
      (removeExpiredRequests rlDupCfg 2000 rlDupState) = true ∧
    rlDupCfg.maxRequests ≤
      (removeExpiredRequests rlDupCfg 2000 rlDupState).requests.length ∧
    (rlCanSendError rlDupCfg 2000 sampleError rlDupState).1.reason =
      some "Rate limit exceeded" ∧
    (rlCanSendError rlDupCfg 2000 sampleError rlDupState).1.reason ≠
      some "Duplicate error" := by
  decide

/-- C5 (amended): the window-count cap is checked first — whenever the
pruned window is full the report is denied with `"Rate limit
exceeded"`, regardless of the duplicate window; the fingerprint
duplicate check runs second, so `"Duplicate error"` is returned exactly
when the cap admits and the fingerprint was seen within
`duplicateErrorWindow`. -/
theorem rl_check_order (cfg : RLConfig) (now : Int) (e : ErrorData) (s : RLState) :
    (cfg.maxRequests ≤ (removeExpiredRequests cfg now s).requests.length →
      (rlCanSendError cfg now e s).1.allowed = false ∧
      (rlCanSendError cfg now e s).1.reason = some "Rate limit exceeded") ∧
    ((removeExpiredRequests cfg now s).requests.length < cfg.maxRequests →
      duplicateHit cfg now e (removeExpiredRequests cfg now s) = true →
      (rlCanSendError cfg now e s).1.allowed = false ∧
      (rlCanSendError cfg now e s).1.reason = some "Duplicate error") := by
  constructor
  · intro hfull
    simp [rlCanSendError, hfull]
  · intro hroom hdup
    simp [rlCanSendError, Nat.not_le.mpr hroom, hdup]

/-- Witness for C5 (amended), exercising both implications at concrete
inputs: a full window yields `"Rate limit exceeded"`; an open window
with a fresh duplicate yields `"Duplicate error"`. -/
theorem rl_check_order_witness :
    (rlCanSendError rlDupCfg 2000 sampleError rlDupState).1.reason =
      some "Rate limit exceeded" ∧
    (rlCanSendError { rlDupCfg with maxRequests := 5 } 2000 sampleError
      rlDupState).1.reason = some "Duplicate error" :=
  ⟨((rl_check_order rlDupCfg 2000 sampleError rlDupState).1 (by decide)).2,
   ((rl_check_order { rlDupCfg with maxRequests := 5 } 2000 sampleError
      rlDupState).2 (by decide) (by decide)).2⟩

/-! ## C4 — quota limit evaluation order -/

/-- Filtering twice with the same predicate equals filtering once. -/
theorem filter_idem (p : α → Bool) (l : List α) :
    (l.filter p).filter p = l.filter p := by
  induction l with
  | nil => rfl
  | cons a t ih => cases h : p a <;> simp [List.filter_cons, h, ih]

/-- Burst pruning is idempotent. -/
theorem cleanupBurst_idem (cfg : QuotaConfig) (now : Int) (s : QuotaState) :
    cleanupBurstCounts cfg now (cleanupBurstCounts cfg now s) =
      cleanupBurstCounts cfg now s := by
  simp [cleanupBurstCounts, filter_idem]

/-- After reconciliation the stored day key is the current one. -/
theorem cleanup_lastResetDate (cfg : QuotaConfig) (dk mk : String) (now : Int)
    (s : QuotaState) : (cleanupOldData cfg dk mk now s).lastResetDate = dk := by
  simp only [cleanupOldData, cleanupBurstCounts]
  split_ifs <;> simp_all

/-- After reconciliation the stored month key is the current one. -/
theorem cleanup_lastResetMonth (cfg : QuotaConfig) (dk mk : String) (now : Int)
    (s : QuotaState) : (cleanupOldData cfg dk mk now s).lastResetMonth = mk := by
  simp only [cleanupOldData, cleanupBurstCounts]
  split_ifs <;> simp_all

/-- Burst pruning does not change an already reconciled ledger. -/
theorem cleanupBurst_cleanup (cfg : QuotaConfig) (dk mk : String) (now : Int)
    (s : QuotaState) :
    cleanupBurstCounts cfg now (cleanupOldData cfg dk mk now s) =
      cleanupOldData cfg dk mk now s := by
  simp only [cleanupOldData]
  exact cleanupBurst_idem cfg now _

/-- Reconciliation is idempotent at a fixed clock reading. -/
theorem cleanup_idem (cfg : QuotaConfig) (dk mk : String) (now : Int)
    (s : QuotaState) :
    cleanupOldData cfg dk mk now (cleanupOldData cfg dk mk now s) =
      cleanupOldData cfg dk mk now s := by
  conv_lhs => rw [cleanupOldData]
  simp [cleanup_lastResetDate, cleanup_lastResetMonth, cleanupBurst_cleanup]

/-- The denial reason produced by the payload-size check. -/
def payloadReason (p l : Nat) : String :=
  s!"Payload size ({p}) exceeds limit ({l})"

/-- C4: the quota admission check evaluates the limits in the order
payload-byte-size, burst, daily, monthly, and returns the first failing
limit's reason; the returned state is exactly the reconciled (pruned)
ledger in every case — in particular an oversize payload is rejected
before any counter check and no counter is ever incremented by the
admission check itself. -/
theorem quota_first_failure (cfg : QuotaConfig) (dk mk : String)
    (now nextReset : Int) (psize : Nat) (s : QuotaState) :
    ((quotaCanSendError cfg dk mk now nextReset psize s).2 =
      cleanupOldData cfg dk mk now s) ∧
    (cfg.payloadSizeLimit < psize →
      (quotaCanSendError cfg dk mk now nextReset psize s).1.allowed = false ∧
      (quotaCanSendError cfg dk mk now nextReset psize s).1.reason =
        some (payloadReason psize cfg.payloadSizeLimit)) ∧
    (psize ≤ cfg.payloadSizeLimit →
      cfg.burstLimit ≤ (cleanupOldData cfg dk mk now s).burstCounts.length →
      (quotaCanSendError cfg dk mk now nextReset psize s).1.allowed = false ∧
      (quotaCanSendError cfg dk mk now nextReset psize s).1.reason =
        some "Burst limit exceeded") ∧
    (psize ≤ cfg.payloadSizeLimit →
      (cleanupOldData cfg dk mk now s).burstCounts.length < cfg.burstLimit →
      cfg.dailyLimit ≤ (cleanupOldData cfg dk mk now s).dailyCount →
      (quotaCanSendError cfg dk mk now nextReset psize s).1.allowed = false ∧
      (quotaCanSendError cfg dk mk now nextReset psize s).1.reason =
        some "Daily quota exceeded") ∧
    (psize ≤ cfg.payloadSizeLimit →
      (cleanupOldData cfg dk mk now s).burstCounts.length < cfg.burstLimit →
      (cleanupOldData cfg dk mk now s).dailyCount < cfg.dailyLimit →
      cfg.monthlyLimit ≤ (cleanupOldData cfg dk mk now s).monthlyCount →
      (quotaCanSendError cfg dk mk now nextReset psize s).1.allowed = false ∧
      (quotaCanSendError cfg dk mk now nextReset psize s).1.reason =
        some "Monthly quota exceeded") ∧
    (psize ≤ cfg.payloadSizeLimit →
      (cleanupOldData cfg dk mk now s).burstCounts.length < cfg.burstLimit →
      (cleanupOldData cfg dk mk now s).dailyCount < cfg.dailyLimit →
      (cleanupOldData cfg dk mk now s).monthlyCount < cfg.monthlyLimit →
      (quotaCanSendError cfg dk mk now nextReset psize s).1.allowed = true ∧
      (quotaCanSendError cfg dk mk now nextReset psize s).1.reason = none) := by
  unfold quotaCanSendError getQuotaStats
  simp only [cleanup_idem, cleanupBurst_cleanup, payloadReason]
  split_ifs with h1 h2 h3 h4 <;> simp_all

/-- Tiny quota configuration for the witness. -/
def quotaWitnessCfg : QuotaConfig :=
  { dailyLimit := 2, monthlyLimit := 3, payloadSizeLimit := 10,
    burstLimit := 2, burstWindowMs := 60000 }

/-- Fresh quota ledger for the witness. -/
def quotaWitnessState : QuotaState :=
  { dailyCount := 0, monthlyCount := 0, burstCounts := [],
    lastResetDate := "2024-01-01", lastResetMonth := "2024-01" }

/-- Witness for C4: an 11-byte payload against a 10-byte limit is
denied with the payload-size reason even though all counters are at
zero, and a 5-byte payload is admitted. -/
theorem quota_first_failure_witness :
    (quotaCanSendError quotaWitnessCfg "2024-01-01" "2024-01" 2000 86400000
      11 quotaWitnessState).1.reason = some (payloadReason 11 10) ∧
    (quotaCanSendError quotaWitnessCfg "2024-01-01" "2024-01" 2000 86400000
      5 quotaWitnessState).1.allowed = true :=
  ⟨((quota_first_failure quotaWitnessCfg "2024-01-01" "2024-01" 2000 86400000
      11 quotaWitnessState).2.1 (by decide)).2,
   ((quota_first_failure quotaWitnessCfg "2024-01-01" "2024-01" 2000 86400000
      5 quotaWitnessState).2.2.2.2.2 (by decide) (by decide) (by decide)
      (by decide)).1⟩

/-! ## C2 — no accounting on denial; charge only after both admit -/

/-- The state returned by the rate-limit check is exactly the pruned
state, in every branch. -/
theorem rlCanSend_state (cfg : RLConfig) (now : Int) (e : ErrorData) (s : RLState) :
    (rlCanSendError cfg now e s).2 = removeExpiredRequests cfg now s := by
  unfold rlCanSendError
  dsimp only
  split_ifs <;> rfl

/-- The state returned by the quota check is exactly the reconciled
ledger, in every branch. -/
theorem quotaCanSend_state (cfg : QuotaConfig) (dk mk : String)
    (now nr : Int) (p : Nat) (s : QuotaState) :
    (quotaCanSendError cfg dk mk now nr p s).2 = cleanupOldData cfg dk mk now s := by
  unfold quotaCanSendError getQuotaStats
  dsimp only
  simp only [cleanup_idem, cleanupBurst_cleanup]
  split_ifs <;> rfl

/-- Dispatch never touches the rate limiter or the quota ledger. -/
theorem sendError_preserves_accountants (cfg : PipelineCfg) (orc : Oracles)
    (now : Int) (e : ErrorData) (st : PipelineState) :
    (sendErrorModel cfg orc now e st).state.rl = st.rl ∧
    (sendErrorModel cfg orc now e st).state.quota = st.quota := by
  unfold sendErrorModel handleError queueError
  dsimp only
  split_ifs <;> exact ⟨rfl, rfl⟩



/-- C2: a report dropped by the rate limiter leaves the fingerprint map
and the quota ledger untouched and the request list merely pruned; a
report dropped by the quota check leaves the rate limiter pruned-only
and the ledger merely reconciled, with nothing persisted; and the
fingerprint is recorded and the quota counters incremented (by exactly
one) only when both stages admit. -/
theorem no_charge_on_deny (cfg : PipelineCfg) (orc : Oracles)
    (bs : Option (ErrorData → Option ErrorData)) (dk mk : String)
    (now nr : Int) (e : ErrorData) (st : PipelineState) :
    (∀ reason, (captureModel cfg orc bs dk mk now nr e st).outcome =
        CaptureOutcome.droppedRateLimited reason →
      (captureModel cfg orc bs dk mk now nr e st).state.rl =
        removeExpiredRequests cfg.rl now st.rl ∧
      (captureModel cfg orc bs dk mk now nr e st).state.rl.errorHashes =
        st.rl.errorHashes ∧
      (captureModel cfg orc bs dk mk now nr e st).state.quota = st.quota ∧
      (captureModel cfg orc bs dk mk now nr e st).state.store = st.store) ∧
    (∀ reason, (captureModel cfg orc bs dk mk now nr e st).outcome =
        CaptureOutcome.droppedQuota reason →
      (captureModel cfg orc bs dk mk now nr e st).state.rl =
        removeExpiredRequests cfg.rl now st.rl ∧
      (captureModel cfg orc bs dk mk now nr e st).state.rl.errorHashes =
        st.rl.errorHashes ∧
      (captureModel cfg orc bs dk mk now nr e st).state.quota =
        cleanupOldData cfg.quota dk mk now st.quota ∧
      (captureModel cfg orc bs dk mk now nr e st).state.store = st.store) ∧
    (∀ o, (captureModel cfg orc bs dk mk now nr e st).outcome =
        CaptureOutcome.dispatched o →
      ∃ fd, (captureModel cfg orc bs dk mk now nr e st).state.rl =
          markErrorSent now fd (removeExpiredRequests cfg.rl now st.rl) ∧
        (captureModel cfg orc bs dk mk now nr e st).state.quota.dailyCount =
          (cleanupOldData cfg.quota dk mk now st.quota).dailyCount + 1 ∧
        (captureModel cfg orc bs dk mk now nr e st).state.quota.monthlyCount =
          (cleanupOldData cfg.quota dk mk now st.quota).monthlyCount + 1 ∧
        (captureModel cfg orc bs dk mk now nr e st).state.quota.burstCounts =
          (cleanupOldData cfg.quota dk mk now st.quota).burstCounts ++ [now]) := by
  unfold captureModel
  split
  · simp
  · split
    · simp
    · split
      · -- user hook absent: the redacted report itself is dispatched
        dsimp only
        split
        · refine ⟨?_, ?_, ?_⟩
          · intro reason _
            exact ⟨rlCanSend_state _ _ _ _, by rw [rlCanSend_state]; rfl, rfl, rfl⟩
          · intro reason hq
            simp at hq
          · intro o ho
            simp at ho
        · split
          · refine ⟨?_, ?_, ?_⟩
            · intro reason hr
              simp at hr
            · intro reason _
              exact ⟨rlCanSend_state _ _ _ _, by rw [rlCanSend_state]; rfl,
                quotaCanSend_state _ _ _ _ _ _ _, rfl⟩
            · intro o ho
              simp at ho
          · refine ⟨?_, ?_, ?_⟩
            · intro reason hr
              simp at hr
            · intro reason hq
              simp at hq
            · intro o _
              dsimp only
              refine ⟨sanitizeErrorData e, ?_, ?_, ?_, ?_⟩
              · rw [(sendError_preserves_accountants _ _ _ _ _).1, rlCanSend_state]
              · rw [(sendError_preserves_accountants _ _ _ _ _).2]
                simp [recordUsage, quotaCanSend_state, cleanup_idem]
              · rw [(sendError_preserves_accountants _ _ _ _ _).2]
                simp [recordUsage, quotaCanSend_state, cleanup_idem]
              · rw [(sendError_preserves_accountants _ _ _ _ _).2]
                simp [recordUsage, quotaCanSend_state, cleanup_idem]
      · -- user hook present: split on its verdict
        rename_i f
        dsimp only
        split
        · simp
        · rename_i fd hfd
          split
          · refine ⟨?_, ?_, ?_⟩
            · intro reason _
              exact ⟨rlCanSend_state _ _ _ _, by rw [rlCanSend_state]; rfl, rfl, rfl⟩
            · intro reason hq
              simp at hq
            · intro o ho
              simp at ho
          · split
            · refine ⟨?_, ?_, ?_⟩
              · intro reason hr
                simp at hr
              · intro reason _
                exact ⟨rlCanSend_state _ _ _ _, by rw [rlCanSend_state]; rfl,
                  quotaCanSend_state _ _ _ _ _ _ _, rfl⟩
              · intro o ho
                simp at ho
            · refine ⟨?_, ?_, ?_⟩
              · intro reason hr
                simp at hr
              · intro reason hq
                simp at hq
              · intro o _
                dsimp only
                refine ⟨fd, ?_, ?_, ?_, ?_⟩
                · rw [(sendError_preserves_accountants _ _ _ _ _).1, rlCanSend_state]
                · rw [(sendError_preserves_accountants _ _ _ _ _).2]
                  simp [recordUsage, quotaCanSend_state, cleanup_idem]
                · rw [(sendError_preserves_accountants _ _ _ _ _).2]
                  simp [recordUsage, quotaCanSend_state, cleanup_idem]
                · rw [(sendError_preserves_accountants _ _ _ _ _).2]
                  simp [recordUsage, quotaCanSend_state, cleanup_idem]

/-- Pipeline state whose rate-limit window is already full. -/
def rlFullState : PipelineState :=
  { freshState with rl := { requests := List.replicate 10 1500, errorHashes := [] } }

/-- Witness for C2: a capture denied by the full rate-limit window at
time 2000 leaves the quota ledger, the durable store and the
fingerprint map untouched. -/
theorem no_charge_on_deny_witness :
    (captureModel sampleCfg happyOracles none "2024-01-01" "2024-01" 2000
      86400000 sampleError rlFullState).state.quota = rlFullState.quota ∧
    (captureModel sampleCfg happyOracles none "2024-01-01" "2024-01" 2000
      86400000 sampleError rlFullState).state.store = rlFullState.store ∧
    (captureModel sampleCfg happyOracles none "2024-01-01" "2024-01" 2000
      86400000 sampleError rlFullState).state.rl.errorHashes =
      rlFullState.rl.errorHashes :=
  have h := (no_charge_on_deny sampleCfg happyOracles none "2024-01-01"
    "2024-01" 2000 86400000 sampleError rlFullState).1 "Rate limit exceeded"
    (by decide)
  ⟨h.2.2.1, h.2.2.2, h.2.1⟩

/-! ## C7 — offline queue flush -/

/-- The per-item update of the flush loop preserves the item id. -/
theorem bump_id (sendOk : ErrorData → Bool) (it : QueuedItem) :
    (if sendOk it.errorData then it
     else { it with attempts := it.attempts + 1 }).id = it.id := by
  split <;> rfl

/-- The per-item update of the flush loop preserves the enqueue
timestamp. -/
theorem bump_timestamp (sendOk : ErrorData → Bool) (it : QueuedItem) :
    (if sendOk it.errorData then it
     else { it with attempts := it.attempts + 1 }).timestamp = it.timestamp := by
  split <;> rfl

/-- C7: over a snapshot of the queue, a flush removes the items whose
send succeeded, increments `attempts` on the failed ones and removes
exactly those reaching `attempts ≥ 3`; the resulting queue is the
complement of the removal set in original enqueue order and is
persisted under the queue key; consequently every persisted item has
`attempts < 3` and `enqueuedAt ≤ now`. -/
theorem processQueue_spec (sendOk : ErrorData → Bool) (s : OfflineState)
    (st : Store) (now : Int)
    (hon : s.isOnline = true)
    (hids : (s.queue.map (fun it => it.id)).Nodup)
    (hts : ∀ it ∈ s.queue, it.timestamp ≤ now) :
    (processQueue sendOk s st).1.queue =
      (s.queue.map (fun it => if sendOk it.errorData then it
          else { it with attempts := it.attempts + 1 })).filter
        (fun it => ¬(sendOk it.errorData || decide (3 ≤ it.attempts))) ∧
    (processQueue sendOk s st).2 offlineQueueKey =
      some (StoredVal.offlineQueue ((processQueue sendOk s st).1.queue)) ∧
    (∀ it ∈ (processQueue sendOk s st).1.queue,
      it.attempts < 3 ∧ it.timestamp ≤ now) := by
  have hidsA : (((s.queue.map (fun it => if sendOk it.errorData then it
      else { it with attempts := it.attempts + 1 })).map (fun it => it.id)).Nodup) := by
    rw [List.map_map]
    have hco : ((fun it => QueuedItem.id it) ∘ (fun it =>
        if sendOk it.errorData then it
        else { it with attempts := it.attempts + 1 })) = fun it => it.id := by
      funext x
      exact bump_id sendOk x
    rw [hco]
    exact hids
  have key : ∀ it ∈ (s.queue.map (fun it => if sendOk it.errorData then it
      else { it with attempts := it.attempts + 1 })),
      ((((s.queue.map (fun it => if sendOk it.errorData then it
          else { it with attempts := it.attempts + 1 })).filter
            (fun it => sendOk it.errorData || decide (3 ≤ it.attempts))).map
              (fun x => x.id)).contains it.id) =
        (sendOk it.errorData || decide (3 ≤ it.attempts)) := by
    intro it hit
    by_cases hpi : (sendOk it.errorData || decide (3 ≤ it.attempts)) = true
    · rw [hpi]
      have hm : it.id ∈ (((s.queue.map (fun it => if sendOk it.errorData then it
          else { it with attempts := it.attempts + 1 })).filter
            (fun it => sendOk it.errorData || decide (3 ≤ it.attempts))).map
              (fun x => x.id)) :=
        List.mem_map.mpr ⟨it, List.mem_filter.mpr ⟨hit, hpi⟩, rfl⟩
      exact List.elem_iff.mpr hm
    · cases hc : (((s.queue.map (fun it => if sendOk it.errorData then it
          else { it with attempts := it.attempts + 1 })).filter
            (fun it => sendOk it.errorData || decide (3 ≤ it.attempts))).map
              (fun x => x.id)).contains it.id
      · cases hq : (sendOk it.errorData || decide (3 ≤ it.attempts))
        · rfl
        · exact absurd hq hpi
      · exfalso
        have hm := List.elem_iff.mp hc
        obtain ⟨it', hit', heq⟩ := List.mem_map.mp hm
        obtain ⟨hit'A, hp'⟩ := List.mem_filter.mp hit'
        have hee := List.inj_on_of_nodup_map hidsA hit'A hit heq
        rw [hee] at hp'
        exact hpi hp'
  have h1 : (processQueue sendOk s st).1.queue =
      (s.queue.map (fun it => if sendOk it.errorData then it
          else { it with attempts := it.attempts + 1 })).filter
        (fun it => ¬(sendOk it.errorData || decide (3 ≤ it.attempts))) := by
    unfold processQueue
    rw [if_neg (by simp [hon])]
    dsimp only
    refine List.filter_congr ?_
    intro it hit
    rw [key it hit]
  refine ⟨h1, ?_, ?_⟩
  · unfold processQueue
    rw [if_neg (by simp [hon])]
    dsimp only
    simp [storeSet]
  · intro it hit
    rw [h1] at hit
    obtain ⟨hitA, hkeep⟩ := List.mem_filter.mp hit
    constructor
    · by_contra hlt
      push_neg at hlt
      simp [hlt] at hkeep
    · obtain ⟨j, hj, hje⟩ := List.mem_map.mp hitA
      rw [← hje, bump_timestamp]
      exact hts j hj

/-- A report whose send fails in the flush witness. -/
def failError : ErrorData := { sampleError with message := "bad" }

/-- Transport oracle for the flush witness: only `"boom"` reports go
through. -/
def flushSendOk : ErrorData → Bool := fun e => e.message == "boom"

/-- Offline state for the flush witness: one deliverable item, one
fresh failing item, one failing item already at two attempts. -/
def flushState : OfflineState :=
  { queue :=
      [ { id := 1, errorData := sampleError, timestamp := 100, attempts := 0 },
        { id := 2, errorData := failError, timestamp := 200, attempts := 1 },
        { id := 3, errorData := failError, timestamp := 300, attempts := 2 } ]
    isOnline := true }

/-- Witness for C7: after the flush only the second item remains, with
`attempts` incremented to 2; every survivor satisfies the invariant. -/
theorem processQueue_spec_witness :
    (processQueue flushSendOk flushState emptyStore).1.queue =
      [{ id := 2, errorData := failError, timestamp := 200, attempts := 2 }] ∧
    (∀ it ∈ (processQueue flushSendOk flushState emptyStore).1.queue,
      it.attempts < 3 ∧ it.timestamp ≤ (400 : Int)) :=
  have h := processQueue_spec flushSendOk flushState emptyStore 400 rfl
    (by decide) (by decide)
  ⟨h.1.trans (by rfl), h.2.2⟩

/-! ## C9 -- redaction idempotence -/

/-- Some sensitive pattern matches somewhere in `s`. -/
def hasAnyMatch (s : String) : Bool :=
  sensitivePatterns.any (fun r => hasMatchFrom r none s.toList)

/-- A global replace over a string in which the pattern matches
nowhere is the identity. -/
theorem replaceFrom_no_match (r : Reg) (repl : List Char) :
    ∀ (l : List Char) (prev : Option Char), hasMatchFrom r prev l = false →
      replaceFrom r repl (l.length + 1) prev l = l
  | [], prev, h => by
      unfold hasMatchFrom at h
      unfold replaceFrom
      cases hm : matchHere r prev [] with
      | none => rfl
      | some x =>
          rw [hm] at h
          simp at h
  | c :: t, prev, h => by
      unfold hasMatchFrom at h
      rw [Bool.or_eq_false_iff] at h
      obtain ⟨h1, h2⟩ := h
      unfold replaceFrom
      cases hm : matchHere r prev (c :: t) with
      | none =>
          dsimp only
          rw [List.length_cons, replaceFrom_no_match r repl t (some c) h2]
      | some rest =>
          rw [hm] at h1
          simp at h1

/-- A fold over passes that each fix `t` returns `t`. -/
theorem foldl_fixed (f : String → Reg → String) (t : String) :
    ∀ (l : List Reg), (∀ r ∈ l, f t r = t) → l.foldl f t = t
  | [], _ => rfl
  | r :: rs, h => by
      rw [List.foldl_cons, h r (List.mem_cons_self r rs),
        foldl_fixed f t rs (fun r' hr' => h r' (List.mem_cons_of_mem r hr'))]

/-- A redaction pass whose pattern matches nowhere is the identity. -/
theorem redactPass_fix (r : Reg) (s : String)
    (h : hasMatchFrom r none s.toList = false) : redactPass r s = s := by
  unfold redactPass
  rw [replaceFrom_no_match r _ s.toList none h]
  rfl

/-- `sanitizeText` is the identity on match-free strings. -/
theorem sanitizeText_fix (s : String) (h : hasAnyMatch s = false) :
    sanitizeText s = s := by
  have hall : ∀ r ∈ sensitivePatterns, hasMatchFrom r none s.toList = false := by
    intro r hr
    unfold hasAnyMatch at h
    rw [List.any_eq_false] at h
    simpa using h r hr
  exact foldl_fixed _ s sensitivePatterns
    (fun r hr => redactPass_fix r s (hall r hr))



mutual

/-- `sanitizeObject` is the identity on `v` (checked structurally):
sensitive keys already map to the redaction sentinel, other string
values are match-free, object-typed values recurse. -/
def jfixVal : JVal → Bool
  | JVal.arr xs => jfixArr xs
  | JVal.obj kvs => jfixKVs kvs
  | _ => true

/-- Array version of `jfixVal`. -/
def jfixArr : List JVal → Bool
  | [] => true
  | v :: vs => jfixVal v && jfixArr vs

/-- Object-entry version of `jfixVal`. -/
def jfixKVs : List (String × JVal) → Bool
  | [] => true
  | (k, v) :: kvs =>
      (if isSensitiveKey k then
         (match v with
          | JVal.str s => s == "[REDACTED]"
          | _ => false)
       else
         match v with
         | JVal.str s => !hasAnyMatch s
         | JVal.null => true
         | JVal.arr xs => jfixArr xs
         | JVal.obj o => jfixKVs o
         | _ => true) && jfixKVs kvs

end

mutual

/-- Values satisfying `jfixVal` are fixpoints of `sanitizeObject`. -/
theorem jfixVal_fix : ∀ v, jfixVal v = true → sanitizeObject v = v
  | JVal.arr xs, h => by
      rw [sanitizeObject, jfixArr_fix xs (by simpa [jfixVal] using h)]
  | JVal.obj kvs, h => by
      rw [sanitizeObject, jfixKVs_fix kvs (by simpa [jfixVal] using h)]
  | JVal.str _, _ => rfl
  | JVal.num _, _ => rfl
  | JVal.boolean _, _ => rfl
  | JVal.null, _ => rfl

/-- Arrays satisfying `jfixArr` are fixpoints of `sanitizeArr`. -/
theorem jfixArr_fix : ∀ xs, jfixArr xs = true → sanitizeArr xs = xs
  | [], _ => rfl
  | v :: vs, h => by
      rw [jfixArr, Bool.and_eq_true] at h
      rw [sanitizeArr, jfixVal_fix v h.1, jfixArr_fix vs h.2]

/-- Entry lists satisfying `jfixKVs` are fixpoints of `sanitizeKVs`. -/
theorem jfixKVs_fix : ∀ kvs, jfixKVs kvs = true → sanitizeKVs kvs = kvs
  | [], _ => rfl
  | (k, v) :: kvs, h => by
      by_cases hk : isSensitiveKey k = true
      · cases v with
        | str s =>
            have hs : (s == "[REDACTED]") = true ∧ jfixKVs kvs = true := by
              simpa [jfixKVs, hk] using h
            have hs1 : s = "[REDACTED]" := by simpa using hs.1
            simp [sanitizeKVs, hk, hs1, jfixKVs_fix kvs hs.2]
        | num n => simp [jfixKVs, hk] at h
        | boolean b => simp [jfixKVs, hk] at h
        | null => simp [jfixKVs, hk] at h
        | arr xs => simp [jfixKVs, hk] at h
        | obj o => simp [jfixKVs, hk] at h
      · cases v with
        | str s =>
            have hs : (!hasAnyMatch s) = true ∧ jfixKVs kvs = true := by
              simpa [jfixKVs, hk] using h
            have hs1 : hasAnyMatch s = false := by simpa using hs.1
            simp [sanitizeKVs, hk, sanitizeText_fix s hs1, jfixKVs_fix kvs hs.2]
        | num n =>
            have hs : jfixKVs kvs = true := by simpa [jfixKVs, hk] using h
            simp [sanitizeKVs, hk, jfixKVs_fix kvs hs]
        | boolean b =>
            have hs : jfixKVs kvs = true := by simpa [jfixKVs, hk] using h
            simp [sanitizeKVs, hk, jfixKVs_fix kvs hs]
        | null =>
            have hs : jfixKVs kvs = true := by simpa [jfixKVs, hk] using h
            simp [sanitizeKVs, hk, jfixKVs_fix kvs hs, sanitizeObject]
        | arr xs =>
            have hs : jfixArr xs = true ∧ jfixKVs kvs = true := by
              simpa [jfixKVs, hk] using h
            simp [sanitizeKVs, hk, jfixKVs_fix kvs hs.2, sanitizeObject,
              jfixArr_fix xs hs.1]
        | obj o =>
            have hs : jfixKVs o = true ∧ jfixKVs kvs = true := by
              simpa [jfixKVs, hk] using h
            simp [sanitizeKVs, hk, jfixKVs_fix kvs hs.2, sanitizeObject,
              jfixKVs_fix o hs.1]

end



/-- `jfixVal` lifted to optional values. -/
def optJfix : Option JVal → Bool
  | none => true
  | some j => jfixVal j

/-- Every text position that a redaction pass touches is already
match-free / redacted in `r`. -/
def reportFix (r : ErrorData) : Bool :=
  !hasAnyMatch r.message && !hasAnyMatch r.stack_trace &&
  optJfix r.context && optJfix r.user &&
  (match r.breadcrumbs with
   | none => true
   | some bcs => bcs.all (fun b => !hasAnyMatch b.message && optJfix b.data))

/-- Mapping a function that fixes every member is the identity. -/
theorem map_fixed {α : Type} (f : α → α) :
    ∀ (l : List α), (∀ a ∈ l, f a = a) → l.map f = l
  | [], _ => rfl
  | a :: t, h => by
      rw [List.map_cons, h a (List.mem_cons_self a t),
        map_fixed f t (fun b hb => h b (List.mem_cons_of_mem a hb))]

/-- Reports satisfying `reportFix` are fixpoints of
`sanitizeErrorData`. -/
theorem sanitizeErrorData_fix (r : ErrorData) (h : reportFix r = true) :
    sanitizeErrorData r = r := by
  unfold reportFix at h
  simp only [Bool.and_eq_true, Bool.not_eq_true'] at h
  obtain ⟨⟨⟨⟨hm, hst⟩, hctx⟩, husr⟩, hbc⟩ := h
  unfold sanitizeErrorData
  have e1 : (if r.message ≠ "" then sanitizeText r.message else r.message) =
      r.message := by
    split
    · exact sanitizeText_fix _ hm
    · rfl
  have e2 : (if r.stack_trace ≠ "" then sanitizeText r.stack_trace
      else r.stack_trace) = r.stack_trace := by
    split
    · exact sanitizeText_fix _ hst
    · rfl
  have e3 : r.context.map sanitizeObject = r.context := by
    cases hc : r.context with
    | none => rfl
    | some j =>
        rw [hc] at hctx
        exact congrArg some (jfixVal_fix j (by simpa [optJfix] using hctx))
  have e4 : r.user.map sanitizeObject = r.user := by
    cases hu : r.user with
    | none => rfl
    | some j =>
        rw [hu] at husr
        exact congrArg some (jfixVal_fix j (by simpa [optJfix] using husr))
  have e5 : r.breadcrumbs.map (fun bcs => bcs.map (fun b =>
      { b with
        message := sanitizeText b.message
        data := b.data.map sanitizeObject })) = r.breadcrumbs := by
    cases hb : r.breadcrumbs with
    | none => rfl
    | some bcs =>
        rw [hb] at hbc
        refine congrArg some (map_fixed _ bcs ?_)
        intro b hbm
        have hball := List.all_eq_true.mp hbc b hbm
        simp only [Bool.and_eq_true, Bool.not_eq_true'] at hball
        obtain ⟨hbm1, hbm2⟩ := hball
        have hd : b.data.map sanitizeObject = b.data := by
          cases hdd : b.data with
          | none => rfl
          | some j =>
              rw [hdd] at hbm2
              exact congrArg some (jfixVal_fix j (by simpa [optJfix] using hbm2))
        rw [sanitizeText_fix _ hbm1, hd]
  rw [e1, e2, e3, e4, e5]



/-- A report whose message hides a digit run in front of a password
assignment: redacting the password exposes a phone-number match. -/
def riskyError : ErrorData :=
  { sampleError with message := "1234567890password: 'x'" }

/-- Counterexample for C9: redaction is not idempotent.  For the
message `"1234567890password: 'x'"` the first pass redacts only the
password key-value (the ten digits are not followed by a word boundary,
so the phone pattern does not match); the redaction ends the digit run
at a word boundary, so the second pass additionally redacts the digit
run -- the twice-sanitized report differs from the once-sanitized
one. -/
theorem sanitize_not_idempotent :
    sanitizeErrorData (sanitizeErrorData riskyError) ≠ sanitizeErrorData riskyError := by
  intro h
  have hm := congrArg ErrorData.message h
  rw [show (sanitizeErrorData (sanitizeErrorData riskyError)).message =
        "[REDACTED][REDACTED]" from rfl,
      show (sanitizeErrorData riskyError).message =
        "1234567890[REDACTED]" from rfl] at hm
  exact absurd hm (by decide)

/-- C9 (amended): redaction is a fixpoint on every report whose
once-redacted text fields are free of sensitive-pattern matches (and
whose sensitive keys are already redacted) -- but not idempotent in
general, because a replacement can expose a new match. -/
theorem sanitize_idempotent_on_clean (r : ErrorData)
    (h : reportFix (sanitizeErrorData r) = true) :
    sanitizeErrorData (sanitizeErrorData r) = sanitizeErrorData r :=
  sanitizeErrorData_fix _ h

/-- Witness for C9 (amended): the sample report's redaction is
match-free, so re-redacting changes nothing. -/
theorem sanitize_idempotent_on_clean_witness :
    sanitizeErrorData (sanitizeErrorData sampleError) = sanitizeErrorData sampleError :=
  sanitize_idempotent_on_clean sampleError (by decide)

/-! ## C1 -- terminal outcomes of admitted captures, and C3 -- OPEN breaker -/

/-- With batching disabled and offline support enabled, the dispatch
step ends in delivery or durable queueing -- `handleError` catches its
own send failures. -/
theorem sendError_outcome_nobatch (cfg : PipelineCfg) (orc : Oracles)
    (now : Int) (e : ErrorData) (st : PipelineState)
    (hb : cfg.enableBatching = false) (ho : cfg.enableOfflineSupport = true) :
    (sendErrorModel cfg orc now e st).outcome = SendOutcome.delivered ∨
    (sendErrorModel cfg orc now e st).outcome = SendOutcome.queued := by
  unfold sendErrorModel handleError
  dsimp only
  simp only [hb, ho]
  split_ifs <;> simp_all

/-- C1 (amended): with batching disabled and offline support enabled
(the non-batching coordinator path), every admitted capture is either
delivered or durably queued, and every admission-stage drop (validation,
`beforeSend`, rate limit, quota) records exactly one suppression.  With
batching enabled the guarantee fails: a failed batch flush discards the
reports with no outcome recorded (see the counterexample). -/
theorem admitted_terminal_outcome (cfg : PipelineCfg) (orc : Oracles)
    (bs : Option (ErrorData → Option ErrorData)) (dk mk : String)
    (now nr : Int) (e : ErrorData) (st : PipelineState)
    (hb : cfg.enableBatching = false) (ho : cfg.enableOfflineSupport = true) :
    (∀ o, (captureModel cfg orc bs dk mk now nr e st).outcome =
        CaptureOutcome.dispatched o →
      o = SendOutcome.delivered ∨ o = SendOutcome.queued) ∧
    ((captureModel cfg orc bs dk mk now nr e st).outcome =
        CaptureOutcome.droppedValidation ∨
     (captureModel cfg orc bs dk mk now nr e st).outcome =
        CaptureOutcome.droppedBeforeSend ∨
     (∃ rr, (captureModel cfg orc bs dk mk now nr e st).outcome =
        CaptureOutcome.droppedRateLimited rr) ∨
     (∃ qq, (captureModel cfg orc bs dk mk now nr e st).outcome =
        CaptureOutcome.droppedQuota qq) →
      (captureModel cfg orc bs dk mk now nr e st).state.monitor.errorsSuppressed =
        st.monitor.errorsSuppressed + 1) := by
  unfold captureModel
  split
  · constructor
    · intro o ho'
      simp at ho'
    · intro hdrop
      rcases hdrop with h | h | ⟨rr, h⟩ | ⟨qq, h⟩ <;> simp at h
  · split
    · constructor
      · intro o ho'
        simp at ho'
      · intro _
        rfl
    · split
      · dsimp only
        split
        · constructor
          · intro o ho'
            simp at ho'
          · intro _
            rfl
        · split
          · constructor
            · intro o ho'
              simp at ho'
            · intro _
              rfl
          · constructor
            · intro o ho'
              simp only [CaptureOutcome.dispatched.injEq] at ho'
              rw [← ho']
              exact sendError_outcome_nobatch cfg orc now _ _ hb ho
            · intro hdrop
              rcases hdrop with h | h | ⟨rr, h⟩ | ⟨qq, h⟩ <;> simp at h
      · rename_i f
        dsimp only
        split
        · constructor
          · intro o ho'
            simp at ho'
          · intro _
            rfl
        · rename_i fd hfd
          split
          · constructor
            · intro o ho'
              simp at ho'
            · intro _
              rfl
          · split
            · constructor
              · intro o ho'
                simp at ho'
              · intro _
                rfl
            · constructor
              · intro o ho'
                simp only [CaptureOutcome.dispatched.injEq] at ho'
                rw [← ho']
                exact sendError_outcome_nobatch cfg orc now _ _ hb ho
              · intro hdrop
                rcases hdrop with h | h | ⟨rr, h⟩ | ⟨qq, h⟩ <;> simp at h



/-- Default-like configuration with batching enabled and a batch size
of one. -/
def batchCfg : PipelineCfg :=
  { sampleCfg with
    enableBatching := true
    batch := { maxSize := 1, maxWaitTime := 5000, maxPayloadSize := 102400 } }

/-- Oracles in which batch flushes fail (single sends would
succeed). -/
def failBatchOracles : Oracles :=
  { happyOracles with batchSendOk := fun _ => false }

/-- Counterexample for C1: with batching enabled (the default) and a
failing flush, an admitted report reaches the terminal state
`batchLost`: it is neither delivered, nor queued, nor accounted as a
suppression -- it is silently lost. -/
theorem admitted_lost_counterexample :
    (captureModel batchCfg failBatchOracles none "2024-01-01" "2024-01" 2000
      86400000 sampleError freshState).outcome =
      CaptureOutcome.dispatched SendOutcome.batchLost ∧
    (captureModel batchCfg failBatchOracles none "2024-01-01" "2024-01" 2000
      86400000 sampleError freshState).state.offline.queue = [] ∧
    (captureModel batchCfg failBatchOracles none "2024-01-01" "2024-01" 2000
      86400000 sampleError freshState).state.batch = [] ∧
    (captureModel batchCfg failBatchOracles none "2024-01-01" "2024-01" 2000
      86400000 sampleError freshState).state.monitor.errorsSuppressed =
      freshState.monitor.errorsSuppressed :=
  ⟨by decide, rfl, rfl, rfl⟩

/-- Witness for C1 (amended): a happy-path capture is delivered, and a
rate-limited capture records exactly one suppression. -/
theorem admitted_terminal_outcome_witness :
    (SendOutcome.delivered = SendOutcome.delivered ∨
     SendOutcome.delivered = SendOutcome.queued) ∧
    (captureModel sampleCfg happyOracles none "2024-01-01" "2024-01" 2000
      86400000 sampleError rlFullState).state.monitor.errorsSuppressed =
      rlFullState.monitor.errorsSuppressed + 1 :=
  ⟨(admitted_terminal_outcome sampleCfg happyOracles none "2024-01-01" "2024-01"
      2000 86400000 sampleError freshState rfl rfl).1 SendOutcome.delivered
      (by decide),
   (admitted_terminal_outcome sampleCfg happyOracles none "2024-01-01" "2024-01"
      2000 86400000 sampleError rlFullState rfl rfl).2
      (Or.inr (Or.inr (Or.inl ⟨"Rate limit exceeded", by decide⟩)))⟩

/-- Pipeline state whose circuit breaker has just opened (reset timeout
not elapsed) while the browser is online. -/
def openState : PipelineState :=
  { freshState with
    cb := { freshState.cb with kind := CBKind.opened, stateChangeTime := 2000 } }

/-- Counterexample for C3: circuit breaker OPEN and not elapsed,
batching disabled, browser online -- the coordinator diverts to the
offline manager, which immediately invokes the transport
(`transportCalls = 1`), contradicting the claim that no transport
invocation happens while OPEN. -/
theorem open_transport_counterexample :
    openState.cb.kind = CBKind.opened ∧
    shouldAttemptReset sampleCfg.cb 2000 openState.cb = false ∧
    sampleCfg.enableBatching = false ∧
    (sendErrorModel sampleCfg happyOracles 2000 sampleError openState).transportCalls = 1 ∧
    (sendErrorModel sampleCfg happyOracles 2000 sampleError openState).outcome =
      SendOutcome.delivered :=
  ⟨rfl, by decide, rfl, rfl, by decide⟩

/-- C3 (amended): while the breaker is OPEN and the reset timeout has
not elapsed, with batching disabled, the breaker-guarded send is not
run and the breaker state is untouched; the report goes to the offline
manager, which queues it durably without invoking the transport
*provided the browser is offline* -- when online the offline manager
still attempts a direct send, and with batching enabled the breaker is
bypassed entirely. -/
theorem open_offline_diverts (cfg : PipelineCfg) (orc : Oracles) (now : Int)
    (e : ErrorData) (st : PipelineState)
    (hopen : st.cb.kind = CBKind.opened)
    (hne : shouldAttemptReset cfg.cb now st.cb = false)
    (hb : cfg.enableBatching = false)
    (hoff : st.offline.isOnline = false) :
    (sendErrorModel cfg orc now e st).transportCalls = 0 ∧
    (sendErrorModel cfg orc now e st).outcome = SendOutcome.queued ∧
    (sendErrorModel cfg orc now e st).state.cb = st.cb ∧
    (sendErrorModel cfg orc now e st).state.store offlineQueueKey =
      some (StoredVal.offlineQueue
        ((sendErrorModel cfg orc now e st).state.offline.queue)) := by
  unfold sendErrorModel canExecute handleError queueError
  simp [hb, hopen, hne, hoff, storeSet]

/-- `openState` with the browser offline. -/
def openOfflineState : PipelineState :=
  { openState with offline := { queue := [], isOnline := false } }

/-- Witness for C3 (amended) at the concrete OPEN-and-offline state. -/
theorem open_offline_diverts_witness :
    (sendErrorModel sampleCfg happyOracles 2000 sampleError openOfflineState).transportCalls = 0 ∧
    (sendErrorModel sampleCfg happyOracles 2000 sampleError openOfflineState).outcome =
      SendOutcome.queued ∧
    (sendErrorModel sampleCfg happyOracles 2000 sampleError openOfflineState).state.cb =
      openOfflineState.cb ∧
    (sendErrorModel sampleCfg happyOracles 2000 sampleError openOfflineState).state.store
        offlineQueueKey =
      some (StoredVal.offlineQueue
        ((sendErrorModel sampleCfg happyOracles 2000 sampleError
          openOfflineState).state.offline.queue)) :=
  open_offline_diverts sampleCfg happyOracles 2000 sampleError openOfflineState
    rfl (by decide) rfl rfl

end ErrorSDK
